import Mathlib

/-!
# openglBox: the 4×4 matrix utilities, the shader helpers and the BMP loader

Shallow embedding of `src/Windows-based/cube/colorful_main.c`,
`src/Windows-based/cube/textured_1side_bleeding_main.c` and
`src/Windows-based/triangle/modern/main.c`.

Conventions of the embedding.

* A C `float` is an element of a field `α` (exact arithmetic); the results that need
  `cosf`, `sinf`, `tanf`, `sqrtf` are stated over `ℝ` with the real functions.  The
  functions of `<math.h>` are passed to the definitions as arguments, so that the
  definitions stay executable over `ℚ`.
* A `float *m` that points to a `float[16]` is a function `Fin 16 → α`.  A C function that
  fills an output buffer takes the buffer's previous contents and returns the new contents.
* A `for` loop with an `int` counter running from `0` is `forLoop`.
* The functions that divide return, next to the matrix, the list of the divisors of the
  divisions they executed, in execution order.
-/

namespace OpenGLBox

/-! ## Buffers and loops -/

/-- Contents of a `float[16]`. -/
abbrev Mat (α : Type) := Fin 16 → α

/-- The C loop `for (int i = 0; i < n; i++) s = body i s`. -/
def forLoop {σ : Type} : Nat → (Nat → σ → σ) → σ → σ
  | 0, _, s => s
  | n + 1, body, s => body n (forLoop n body s)

/-- The assignment `m[i] = v`. -/
def store {α : Type} (m : Mat α) (i : Nat) (v : α) : Mat α :=
  Function.update m (Fin.ofNat i) v

/-- The read `m[i]`. -/
def load {α : Type} (m : Mat α) (i : Nat) : α :=
  m (Fin.ofNat i)

/-- Column-major reading of a buffer: the entry at row `i`, column `j` is `m[4*j+i]`. -/
def entry {α : Type} (m : Mat α) (i j : Fin 4) : α :=
  load m (4 * j.val + i.val)

/-- Row-major reading of a buffer: the entry at row `i`, column `j` is `m[4*i+j]`. -/
def entryRowMajor {α : Type} (m : Mat α) (i j : Fin 4) : α :=
  load m (4 * i.val + j.val)

/-! ## Matrix utilities that need no division -/

section Ring

variable {α : Type} [CommRing α]

/-- Embedding of `mat_identity`:
`for (int i = 0; i < 16; i++) m[i] = 0.0f; m[0] = m[5] = m[10] = m[15] = 1.0f;`
(the chained assignment stores right to left). -/
def mat_identity (m : Mat α) : Mat α :=
  let m := forLoop 16 (fun i m => store m i 0) m
  let m := store m 15 1
  let m := store m 10 1
  let m := store m 5 1
  store m 0 1

/-- Embedding of `mat_multiply`.  The local `tmp` is not initialised in the source; every cell
of it is written by the double loop before the copy loop reads it, so its initial contents
(here zeros) do not reach the result. -/
def mat_multiply (r a b : Mat α) : Mat α :=
  let tmp : Mat α :=
    forLoop 4 (fun i tmp =>
      forLoop 4 (fun j tmp =>
        store tmp (i * 4 + j)
          (load a (i * 4 + 0) * load b (0 * 4 + j) +
           load a (i * 4 + 1) * load b (1 * 4 + j) +
           load a (i * 4 + 2) * load b (2 * 4 + j) +
           load a (i * 4 + 3) * load b (3 * 4 + j))) tmp) (fun _ => 0)
  forLoop 16 (fun i r => store r i (load tmp i)) r

/-- Embedding of `mat_translate`. -/
def mat_translate (m : Mat α) (x y z : α) : Mat α :=
  let m := mat_identity m
  let m := store m 12 x
  let m := store m 13 y
  store m 14 z

/-- The 16 values of the identity matrix, in buffer order. -/
def identityValues : Mat α :=
  ![1, 0, 0, 0, 0, 1, 0, 0, 0, 0, 1, 0, 0, 0, 0, 1]

end Ring

/-! ## Matrix utilities that divide -/

section Field

variable {α : Type} [Field α]

/-- The macro `#define DEG2RAD(x) ((x) * 0.017453292519943295769f)`. -/
def DEG2RAD (x : α) : α :=
  x * 0.017453292519943295769

/-- Embedding of `mat_perspective`.  The second component lists the divisors of the five
divisions the body executes: `DEG2RAD(fov) / 2.0f`, `1.0f / tanf(...)`, `f / aspect` and the
two divisions by `znear - zfar`. -/
def mat_perspective (tanf : α → α) (m : Mat α) (fov aspect znear zfar : α) :
    Mat α × List α :=
  let f := 1 / tanf (DEG2RAD fov / 2)
  let m := mat_identity m
  let m := store m 0 (f / aspect)
  let m := store m 5 f
  let m := store m 10 ((zfar + znear) / (znear - zfar))
  let m := store m 11 (-1)
  let m := store m 14 ((2 * zfar * znear) / (znear - zfar))
  let m := store m 15 0
  (m, [2, tanf (DEG2RAD fov / 2), aspect, znear - zfar, znear - zfar])

/-- Embedding of `mat_rotate`.  The second component lists the divisors of the divisions the
taken path executes: none on the early return, `len` three times (`x /= len; y /= len;
z /= len;`) otherwise. -/
def mat_rotate [DecidableEq α] (cosf sinf sqrtf : α → α) (m : Mat α) (angle x y z : α) :
    Mat α × List α :=
  let c := cosf angle
  let s := sinf angle
  let len := sqrtf (x * x + y * y + z * z)
  if len = 0 then (mat_identity m, [])
  else
    let x := x / len
    let y := y / len
    let z := z / len
    let m := mat_identity m
    let m := store m 0 (x * x * (1 - c) + c)
    let m := store m 4 (x * y * (1 - c) - z * s)
    let m := store m 8 (x * z * (1 - c) + y * s)
    let m := store m 1 (y * x * (1 - c) + z * s)
    let m := store m 5 (y * y * (1 - c) + c)
    let m := store m 9 (y * z * (1 - c) - x * s)
    let m := store m 2 (x * z * (1 - c) - y * s)
    let m := store m 6 (y * z * (1 - c) + x * s)
    let m := store m 10 (z * z * (1 - c) + c)
    (m, [len, len, len])

/-- The rotation of the per-frame update in `main`:
`mat_rotate(rot, t, 1.0f, 1.0f, 0.5f)` with `t` the elapsed time. -/
def frame_rot [DecidableEq α] (cosf sinf sqrtf : α → α) (rot : Mat α) (t : α) :
    Mat α × List α :=
  mat_rotate cosf sinf sqrtf rot t 1 1 0.5

end Field

/-! ## Shader helpers

The graphics context is an external collaborator; `GLContext` holds what it answers to the
calls the helpers make. -/

/-- The two values of the `type` argument of `glCreateShader` that the programs use. -/
inductive ShaderType where
  | GL_VERTEX_SHADER
  | GL_FRAGMENT_SHADER
  deriving DecidableEq, Repr

/-- Answers of the graphics context.  `shaderInfoLog` and `programInfoLog` give the text the
context writes into the 512-byte `log` buffer. -/
structure GLContext where
  /-- Name returned by `glCreateShader(type)`. -/
  glCreateShader : ShaderType → Nat
  /-- Name returned by `glCreateProgram()`. -/
  glCreateProgram : Nat
  /-- `GL_COMPILE_STATUS` after compiling the source as a shader of the type. -/
  compileStatus : ShaderType → String → Bool
  /-- Text of `glGetShaderInfoLog`. -/
  shaderInfoLog : ShaderType → String → String
  /-- `GL_LINK_STATUS` after linking the vertex and fragment sources. -/
  linkStatus : String → String → Bool
  /-- Text of `glGetProgramInfoLog`. -/
  programInfoLog : String → String → String

/-- Embedding of `compile_shader` of the cube programs: the returned name and the text written
to `stderr`. -/
def compile_shader (gl : GLContext) (type : ShaderType) (src : String) : Nat × List String :=
  let s := gl.glCreateShader type
  let ok := gl.compileStatus type src
  let err := if !ok then ["Shader error: " ++ gl.shaderInfoLog type src ++ "\n"] else []
  (s, err)

/-- The program construction in `main` of the cube programs (`vs`, `fs`, `prog`, attach, link,
delete): the value of `prog` and the text written to `stderr`.  The link status is not
queried there. -/
def cube_program (gl : GLContext) (vshader fshader : String) : Nat × List String :=
  let vs := compile_shader gl ShaderType.GL_VERTEX_SHADER vshader
  let fs := compile_shader gl ShaderType.GL_FRAGMENT_SHADER fshader
  let prog := gl.glCreateProgram
  (prog, vs.2 ++ fs.2)

/-- Embedding of `readFile` of the modern triangle program: the buffer (`none` for `NULL`) and
the text written to `stderr`.  `fs` gives the contents of the files that can be opened. -/
def readFile (fs : String → Option String) (filename : String) : Option String × List String :=
  match fs filename with
  | none => (none, ["Error: cannot open " ++ filename ++ "\n"])
  | some buf => (some buf, [])

/-- Embedding of `createShaderProgram` of the modern triangle program: the returned name and
the text written to `stderr`. -/
def createShaderProgram (gl : GLContext) (fs : String → Option String) (vpath fpath : String) :
    Nat × List String :=
  let v := readFile fs vpath
  let f := readFile fs fpath
  match v.1, f.1 with
  | some vsrc, some fsrc =>
    let success := gl.compileStatus ShaderType.GL_VERTEX_SHADER vsrc
    let err1 :=
      if !success then
        ["Vertex shader error:\n" ++ gl.shaderInfoLog ShaderType.GL_VERTEX_SHADER vsrc ++ "\n"]
      else []
    let success := gl.compileStatus ShaderType.GL_FRAGMENT_SHADER fsrc
    let err2 :=
      if !success then
        ["Fragment shader error:\n" ++ gl.shaderInfoLog ShaderType.GL_FRAGMENT_SHADER fsrc ++ "\n"]
      else []
    let program := gl.glCreateProgram
    let success := gl.linkStatus vsrc fsrc
    let err3 :=
      if !success then ["Program link error:\n" ++ gl.programInfoLog vsrc fsrc ++ "\n"] else []
    (program, v.2 ++ f.2 ++ err1 ++ err2 ++ err3)
  | _, _ => (0, v.2 ++ f.2)

/-! ## BMP loader -/

/-- An `unsigned char`. -/
abbrev Byte := Fin 256

/-- The byte `header[i]` of a byte sequence. -/
def byteAt (h : List Byte) (i : Nat) : Nat :=
  (h.getD i 0).val

/-- The 32-bit pattern of the four bytes at `off` (little-endian, the byte order of the
Windows targets of the programs). -/
def le32 (h : List Byte) (off : Nat) : Nat :=
  byteAt h off + 256 * byteAt h (off + 1) + 65536 * byteAt h (off + 2) +
    16777216 * byteAt h (off + 3)

/-- The 16-bit field of the two bytes at `off` (little-endian). -/
def le16 (h : List Byte) (off : Nat) : Nat :=
  byteAt h off + 256 * byteAt h (off + 1)

/-- The value of a 32-bit pattern read as `int`. -/
def asInt (n : Nat) : Int :=
  if n < 2147483648 then (n : Int) else (n : Int) - 4294967296

/-- The read `*(int*)&(header[off])`. -/
def readInt (h : List Byte) (off : Nat) : Int :=
  asInt (le32 h off)

/-- Conversion of an `int` to `unsigned int`. -/
def toUnsigned (i : Int) : Nat :=
  (i % 4294967296).toNat

/-- The two header tests of `LoadBMP` (source lines 58 and 59): `true` when neither `return 0`
is taken. -/
def headerCheck (header : List Byte) : Bool :=
  if byteAt header 0 ≠ 66 ∨ byteAt header 1 ≠ 77 then false
  else if readInt header 0x1E ≠ 0 ∨ readInt header 0x1C ≠ 24 then false
  else true

/-- The header test in the words of the specification: signature `BM`, the 16-bit
bits-per-pixel field at `0x1C` equal to 24, the 32-bit compression field at `0x1E` equal
to 0. -/
def headerCheckSpec (header : List Byte) : Prop :=
  byteAt header 0 = 66 ∧ byteAt header 1 = 77 ∧ le16 header 0x1C = 24 ∧ le32 header 0x1E = 0

/-- The locals `dataPos`, `imageSize`, `width`, `height` of `LoadBMP`. -/
structure BMPFields where
  dataPos : Nat
  imageSize : Nat
  width : Nat
  height : Nat
  deriving DecidableEq, Repr

/-- Source lines 60 to 65 of `LoadBMP`: the four fields read from the header, then the two
replacements of a zero field (`unsigned int` arithmetic). -/
def bmpFields (header : List Byte) : BMPFields :=
  let dataPos := toUnsigned (readInt header 0x0A)
  let imageSize := toUnsigned (readInt header 0x22)
  let width := toUnsigned (readInt header 0x12)
  let height := toUnsigned (readInt header 0x16)
  let imageSize := if imageSize = 0 then ((width * height) % 4294967296 * 3) % 4294967296
    else imageSize
  let dataPos := if dataPos = 0 then 54 else dataPos
  { dataPos := dataPos, imageSize := imageSize, width := width, height := height }

/-- The texture `LoadBMP` uploads with `glTexImage2D`: the dimensions and the bytes that
`fread(data, 1, imageSize, file)` read. -/
structure TexImage where
  width : Nat
  height : Nat
  data : List Byte
  deriving DecidableEq, Repr

/-- What a call of `LoadBMP` does: the returned `GLuint`, the text printed, the upload. -/
structure BMPOutcome where
  ret : Nat
  stdout : List String
  upload : Option TexImage
  deriving DecidableEq, Repr

/-- Embedding of `LoadBMP`.  `file` is the contents of the file at `imagepath` (`none` when
`fopen` fails) and `textureID` the name that `glGenTextures` hands out. -/
def LoadBMP (file : Option (List Byte)) (textureID : Nat) : BMPOutcome :=
  match file with
  | none => { ret := 0, stdout := ["Image could not be opened\n"], upload := none }
  | some bytes =>
    let header := bytes.take 54
    if header.length ≠ 54 then
      { ret := 0, stdout := ["Not a correct BMP file\n"], upload := none }
    else if byteAt header 0 ≠ 66 ∨ byteAt header 1 ≠ 77 then
      { ret := 0, stdout := ["Not a correct BMP file\n"], upload := none }
    else if readInt header 0x1E ≠ 0 ∨ readInt header 0x1C ≠ 24 then
      { ret := 0, stdout := ["Not a 24bpp BMP\n"], upload := none }
    else
      let fields := bmpFields header
      let data := (bytes.drop 54).take fields.imageSize
      { ret := textureID, stdout := [],
        upload := some { width := fields.width, height := fields.height, data := data } }

/-! ## Closed forms used in the statements -/

/-- The 16 values, in buffer order, that `mat_rotate` stores when the axis has non-zero
length: `c`, `s` are the cosine and sine, `(x, y, z)` the axis after the three divisions. -/
def rotationValues {α : Type} [CommRing α] (c s x y z : α) : Mat α :=
  ![x * x * (1 - c) + c, y * x * (1 - c) + z * s, x * z * (1 - c) - y * s, 0,
    x * y * (1 - c) - z * s, y * y * (1 - c) + c, y * z * (1 - c) + x * s, 0,
    x * z * (1 - c) + y * s, y * z * (1 - c) - x * s, z * z * (1 - c) + c, 0,
    0, 0, 0, 1]

/-- The 16 values, in buffer order, of the projection matrix with focal factor `f`. -/
def perspectiveValues {α : Type} [Field α] (f aspect znear zfar : α) : Mat α :=
  ![f / aspect, 0, 0, 0,
    0, f, 0, 0,
    0, 0, (zfar + znear) / (znear - zfar), -1,
    0, 0, 2 * zfar * znear / (znear - zfar), 0]

/-- The 16 values, in buffer order, of the identity with `x, y, z` in cells 12, 13, 14. -/
def translationValues {α : Type} [CommRing α] (x y z : α) : Mat α :=
  ![1, 0, 0, 0, 0, 1, 0, 0, 0, 0, 1, 0, x, y, z, 1]

/-- The transpose of a buffer read as a 4×4 matrix: cell `4*j+i` of the result is cell
`4*i+j` of `m`.  The source has no such function; it serves to state orthogonality. -/
def transposeValues {α : Type} (m : Mat α) : Mat α :=
  ![load m 0, load m 4, load m 8, load m 12,
    load m 1, load m 5, load m 9, load m 13,
    load m 2, load m 6, load m 10, load m 14,
    load m 3, load m 7, load m 11, load m 15]

/-- The upper-left 3×3 block of a buffer read column-major, as a matrix. -/
def rotationBlock {α : Type} (m : Mat α) : Matrix (Fin 3) (Fin 3) α :=
  Matrix.of fun i j => load m (4 * j.val + i.val)

/-! ## Concrete inputs used below -/

/-- A buffer of zeros, used as the previous contents of an output buffer. -/
def zeroBuf (α : Type) [Zero α] : Mat α :=
  fun _ => 0

/-- Read column-major: the identity with a 1 added at row 0, column 1 (`a[4] = 1`). -/
def shearA : Mat ℤ :=
  ![1, 0, 0, 0, 1, 1, 0, 0, 0, 0, 1, 0, 0, 0, 0, 1]

/-- Read column-major: the identity with a 1 added at row 1, column 0 (`b[1] = 1`). -/
def shearB : Mat ℤ :=
  ![1, 1, 0, 0, 0, 1, 0, 0, 0, 0, 1, 0, 0, 0, 0, 1]

/-- A graphics context in which every compilation and the link fail; the names it hands out
are 1 and 2 for the shaders and 3 for the program. -/
def failingGL : GLContext where
  glCreateShader := fun t =>
    match t with
    | ShaderType.GL_VERTEX_SHADER => 1
    | ShaderType.GL_FRAGMENT_SHADER => 2
  glCreateProgram := 3
  compileStatus := fun _ _ => false
  shaderInfoLog := fun _ _ => "0(1) : error C0000: syntax error"
  linkStatus := fun _ _ => false
  programInfoLog := fun _ _ => "link failed"

/-- A file system in which every path opens and holds a text that is no shader. -/
def brokenSources : String → Option String :=
  fun _ => some "not a shader"

/-- A 58-byte BMP file: signature `BM`, data offset field 0, width 1, height 1, 24 bits per
pixel, compression 0, image size field 0, then one pixel and one byte of row padding. -/
def tinyBMP : List Byte :=
  [66, 77, 58, 0, 0, 0, 0, 0, 0, 0, 0, 0, 0, 0,
   40, 0, 0, 0, 1, 0, 0, 0, 1, 0, 0, 0, 1, 0, 24, 0,
   0, 0, 0, 0, 0, 0, 0, 0, 0, 0, 0, 0, 0, 0, 0, 0, 0, 0, 0, 0, 0, 0, 0, 0,
   10, 20, 30, 0]

/-! ## Facts about the ring-only utilities -/

section RingFacts

variable {α : Type} [CommRing α]

theorem load_store {β : Type} (m : Mat β) (i j : Nat) (v : β) :
    load (store m i v) j = if j % 16 = i % 16 then v else load m j := by
  simp [load, store, Function.update_apply, Fin.ext_iff, Fin.ofNat]

theorem Mat.ext_load {β : Type} {a b : Mat β} (h : ∀ n, n < 16 → load a n = load b n) :
    a = b := by
  funext k
  have hk := h k.val k.isLt
  simpa [load, Fin.ofNat, Nat.mod_eq_of_lt k.isLt] using hk

theorem load_vec {β : Type} (a0 a1 a2 a3 a4 a5 a6 a7 a8 a9 a10 a11 a12 a13 a14 a15 : β)
    (n : Nat) (hn : n < 16) :
    load ![a0, a1, a2, a3, a4, a5, a6, a7, a8, a9, a10, a11, a12, a13, a14, a15] n =
      [a0, a1, a2, a3, a4, a5, a6, a7, a8, a9, a10, a11, a12, a13, a14, a15].getD n a0 := by
  interval_cases n <;> rfl

theorem load_identityValues (n : Nat) (hn : n < 16) :
    load (identityValues : Mat α) n = if n % 5 = 0 then 1 else 0 := by
  interval_cases n <;> simp [identityValues, load_vec]

theorem mat_identity_eq (m : Mat α) : mat_identity m = identityValues := by
  apply Mat.ext_load
  intro n hn
  rw [load_identityValues n hn]
  interval_cases n <;> simp [mat_identity, forLoop, load_store]

set_option maxHeartbeats 1000000 in
theorem load_mat_multiply (r a b : Mat α) (i j : Nat) (hi : i < 4) (hj : j < 4) :
    load (mat_multiply r a b) (i * 4 + j) =
      load a (i * 4 + 0) * load b (0 * 4 + j) + load a (i * 4 + 1) * load b (1 * 4 + j) +
      load a (i * 4 + 2) * load b (2 * 4 + j) + load a (i * 4 + 3) * load b (3 * 4 + j) := by
  interval_cases i <;> interval_cases j <;> simp [mat_multiply, forLoop, load_store]

theorem load_mat_multiply_flat (r a b : Mat α) (n : Nat) (hn : n < 16) :
    load (mat_multiply r a b) n =
      load a (n / 4 * 4 + 0) * load b (0 * 4 + n % 4) +
      load a (n / 4 * 4 + 1) * load b (1 * 4 + n % 4) +
      load a (n / 4 * 4 + 2) * load b (2 * 4 + n % 4) +
      load a (n / 4 * 4 + 3) * load b (3 * 4 + n % 4) := by
  have h := load_mat_multiply r a b (n / 4) (n % 4) (by omega) (by omega)
  rwa [show n / 4 * 4 + n % 4 = n by omega] at h

theorem mul_identityValues_right (r A : Mat α) :
    mat_multiply r A identityValues = A := by
  apply Mat.ext_load
  intro n hn
  rw [load_mat_multiply_flat r A identityValues n hn]
  interval_cases n <;> simp [load_identityValues]

theorem mul_identityValues_left (r A : Mat α) :
    mat_multiply r identityValues A = A := by
  apply Mat.ext_load
  intro n hn
  rw [load_mat_multiply_flat r identityValues A n hn]
  interval_cases n <;> simp [load_identityValues]

theorem mat_translate_eq (m : Mat α) (x y z : α) :
    mat_translate m x y z = translationValues x y z := by
  apply Mat.ext_load
  intro n hn
  simp only [mat_translate, mat_identity_eq]
  interval_cases n <;> simp [load_store, load_identityValues, translationValues, load_vec]

end RingFacts

/-! ## Facts about the utilities that divide -/

section FieldFacts

variable {α : Type} [Field α]

theorem mat_perspective_fst (tanf : α → α) (m : Mat α) (fov aspect znear zfar : α) :
    (mat_perspective tanf m fov aspect znear zfar).1 =
      perspectiveValues (1 / tanf (DEG2RAD fov / 2)) aspect znear zfar := by
  apply Mat.ext_load
  intro n hn
  simp only [mat_perspective, mat_identity_eq]
  interval_cases n <;> simp [load_store, load_identityValues, perspectiveValues, load_vec]

theorem mat_perspective_snd (tanf : α → α) (m : Mat α) (fov aspect znear zfar : α) :
    (mat_perspective tanf m fov aspect znear zfar).2 =
      [2, tanf (DEG2RAD fov / 2), aspect, znear - zfar, znear - zfar] := rfl

theorem mat_rotate_of_len_eq_zero [DecidableEq α] (cosf sinf sqrtf : α → α) (m : Mat α) (angle x y z : α)
    (h : sqrtf (x * x + y * y + z * z) = 0) :
    mat_rotate cosf sinf sqrtf m angle x y z = (identityValues, []) := by
  simp [mat_rotate, h, mat_identity_eq]

theorem mat_rotate_of_len_ne_zero [DecidableEq α] (cosf sinf sqrtf : α → α) (m : Mat α) (angle x y z : α)
    (h : sqrtf (x * x + y * y + z * z) ≠ 0) :
    mat_rotate cosf sinf sqrtf m angle x y z =
      (rotationValues (cosf angle) (sinf angle)
          (x / sqrtf (x * x + y * y + z * z)) (y / sqrtf (x * x + y * y + z * z))
          (z / sqrtf (x * x + y * y + z * z)),
        [sqrtf (x * x + y * y + z * z), sqrtf (x * x + y * y + z * z),
          sqrtf (x * x + y * y + z * z)]) := by
  simp only [mat_rotate, if_neg h, mat_identity_eq]
  refine Prod.ext ?_ rfl
  apply Mat.ext_load
  intro n hn
  interval_cases n <;> simp [load_store, load_identityValues, rotationValues, load_vec]

theorem rotationValues_one_zero {β : Type} [CommRing β] (x y z : β) :
    rotationValues 1 0 x y z = identityValues := by
  apply Mat.ext_load
  intro n hn
  interval_cases n <;> simp [rotationValues, identityValues, load_vec]

theorem rotationValues_half_turn_sq {β : Type} [CommRing β] (r : Mat β) (x y z : β)
    (hu : x * x + y * y + z * z = 1) :
    mat_multiply r (rotationValues (-1) 0 x y z) (rotationValues (-1) 0 x y z) =
      identityValues := by
  apply Mat.ext_load
  intro n hn
  rw [load_mat_multiply_flat r _ _ n hn]
  interval_cases n <;> simp [rotationValues, identityValues, load_vec] <;>
    first
    | linear_combination (4 * x * x) * hu
    | linear_combination (4 * x * y) * hu
    | linear_combination (4 * x * z) * hu
    | linear_combination (4 * y * y) * hu
    | linear_combination (4 * y * z) * hu
    | linear_combination (4 * z * z) * hu

theorem sumsq_pos (x y z : ℝ) (h : x ≠ 0 ∨ y ≠ 0 ∨ z ≠ 0) : 0 < x * x + y * y + z * z := by
  rcases h with h | h | h <;>
    nlinarith [mul_self_nonneg x, mul_self_nonneg y, mul_self_nonneg z, mul_self_pos.mpr h]

theorem len_ne_zero (x y z : ℝ) (h : x ≠ 0 ∨ y ≠ 0 ∨ z ≠ 0) :
    Real.sqrt (x * x + y * y + z * z) ≠ 0 :=
  (Real.sqrt_pos.mpr (sumsq_pos x y z h)).ne'

theorem unit_axis (x y z : ℝ) (h : x ≠ 0 ∨ y ≠ 0 ∨ z ≠ 0) :
    x / Real.sqrt (x * x + y * y + z * z) * (x / Real.sqrt (x * x + y * y + z * z)) +
      y / Real.sqrt (x * x + y * y + z * z) * (y / Real.sqrt (x * x + y * y + z * z)) +
      z / Real.sqrt (x * x + y * y + z * z) * (z / Real.sqrt (x * x + y * y + z * z)) = 1 := by
  have hl := len_ne_zero x y z h
  have hs := Real.mul_self_sqrt (sumsq_pos x y z h).le
  field_simp
  linear_combination -hs

theorem rotationValues_half_turn_ne (x y z : ℝ) (hu : x * x + y * y + z * z = 1) :
    rotationValues (-1) 0 x y z ≠ identityValues := by
  intro hEq
  have h0 := congrArg (fun M => load M 0) hEq
  have h5 := congrArg (fun M => load M 5) hEq
  have h10 := congrArg (fun M => load M 10) hEq
  simp [rotationValues, identityValues, load_vec] at h0 h5 h10
  linarith

theorem rotate_angle_zero_fst (m : Mat ℝ) (x y z : ℝ) :
    (mat_rotate Real.cos Real.sin Real.sqrt m 0 x y z).1 = identityValues := by
  by_cases h : Real.sqrt (x * x + y * y + z * z) = 0
  · rw [mat_rotate_of_len_eq_zero _ _ _ _ _ _ _ _ h]
  · rw [mat_rotate_of_len_ne_zero _ _ _ _ _ _ _ _ h]
    simp [rotationValues_one_zero]

theorem rotate_angle_pi_fst (m : Mat ℝ) (x y z : ℝ) (h : x ≠ 0 ∨ y ≠ 0 ∨ z ≠ 0) :
    (mat_rotate Real.cos Real.sin Real.sqrt m Real.pi x y z).1 =
      rotationValues (-1) 0
        (x / Real.sqrt (x * x + y * y + z * z)) (y / Real.sqrt (x * x + y * y + z * z))
        (z / Real.sqrt (x * x + y * y + z * z)) := by
  rw [mat_rotate_of_len_ne_zero _ _ _ _ _ _ _ _ (len_ne_zero x y z h)]
  simp

theorem deg2rad_constant_near_pi :
    |(0.017453292519943295769 : ℝ) - Real.pi / 180| < 1 / 10 ^ 21 := by
  have h1 := Real.pi_gt_d20
  have h2 := Real.pi_lt_d20
  rw [abs_sub_lt_iff]
  constructor
  · norm_num at h1 h2 ⊢
    linarith
  · norm_num at h1 h2 ⊢
    linarith

theorem DEG2RAD_near_radians (d : ℝ) :
    |DEG2RAD d - d * (Real.pi / 180)| ≤ |d| / 10 ^ 21 := by
  have h := deg2rad_constant_near_pi
  have e : DEG2RAD d - d * (Real.pi / 180) =
      d * ((0.017453292519943295769 : ℝ) - Real.pi / 180) := by
    unfold DEG2RAD
    ring
  rw [e, abs_mul]
  calc |d| * |(0.017453292519943295769 : ℝ) - Real.pi / 180|
      ≤ |d| * (1 / 10 ^ 21) := mul_le_mul_of_nonneg_left h.le (abs_nonneg d)
    _ = |d| / 10 ^ 21 := by ring

theorem load_identityValues_cell {β : Type} [CommRing β] (i j : Nat) (hi : i < 4)
    (hj : j < 4) :
    load (identityValues : Mat β) (4 * j + i) = if i = j then 1 else 0 := by
  interval_cases i <;> interval_cases j <;> simp [identityValues, load_vec]

theorem frame_axis_len : Real.sqrt (1 * 1 + 1 * 1 + 0.5 * 0.5) = 1.5 := by
  rw [Real.sqrt_eq_iff_mul_self_eq (by norm_num) (by norm_num)]
  norm_num

end FieldFacts

/-! ## C1, C2, C9 -/

section RingClaims

variable {α : Type} [CommRing α]

/-- C1 (as stated) fails: for the two shears, cell (0,0) of the column-major product `a × b`
is 2, and `mat_multiply` stores 1 there. -/
theorem mat_multiply_not_column_major_a_times_b :
    entry (mat_multiply (zeroBuf ℤ) shearA shearB) 0 0 = 1 ∧
      (∑ k : Fin 4, entry shearA 0 k * entry shearB k 0) = 2 ∧
      ¬ (∀ (r a b : Mat ℤ) (i j : Fin 4),
          entry (mat_multiply r a b) i j = ∑ k : Fin 4, entry a i k * entry b k j) := by
  have h1 : entry (mat_multiply (zeroBuf ℤ) shearA shearB) 0 0 = 1 := by decide
  have h2 : (∑ k : Fin 4, entry shearA 0 k * entry shearB k 0) = 2 := by decide
  refine ⟨h1, h2, fun h => ?_⟩
  have h3 := h (zeroBuf ℤ) shearA shearB 0 0
  rw [h1, h2] at h3
  exact absurd h3 (by decide)

/-- C1 (as amended): read column-major, `mat_multiply(r, a, b)` stores the product `b × a`:
the entry at row `i`, column `j` is the sum over `k` of `b[row i, col k] * a[row k, col j]`.
Read row-major, it stores `a × b`. -/
theorem mat_multiply_column_major (r a b : Mat α) (i j : Fin 4) :
    entry (mat_multiply r a b) i j = ∑ k : Fin 4, entry b i k * entry a k j ∧
      entryRowMajor (mat_multiply r a b) i j =
        ∑ k : Fin 4, entryRowMajor a i k * entryRowMajor b k j := by
  have h := load_mat_multiply r a b j.val i.val j.isLt i.isLt
  have h2 := load_mat_multiply r a b i.val j.val i.isLt j.isLt
  have h3 : ((3 : Fin 4) : Nat) = 3 := rfl
  constructor
  · simp only [entry, Fin.sum_univ_four]
    rw [show 4 * j.val + i.val = j.val * 4 + i.val by ring, h]
    simp only [Fin.val_zero, Fin.val_one, Fin.val_two, h3]
    ring_nf
  · simp only [entryRowMajor, Fin.sum_univ_four]
    rw [show 4 * i.val + j.val = i.val * 4 + j.val by ring, h2]
    simp only [Fin.val_zero, Fin.val_one, Fin.val_two, h3]
    ring_nf

/-- C2: the matrix of `mat_identity` is neutral for `mat_multiply` on the right and on the
left, for every 16-element matrix `A` (and whatever the output buffers held before). -/
theorem mat_multiply_identity (r m A : Mat α) :
    mat_multiply r A (mat_identity m) = A ∧ mat_multiply r (mat_identity m) A = A := by
  rw [mat_identity_eq]
  exact ⟨mul_identityValues_right r A, mul_identityValues_left r A⟩

/-- C9: `mat_translate(x, y, z)` is the identity with cells 12, 13, 14 set to `x, y, z`, and
the product with the identity, on either side, still has `[x, y, z, 1]` in cells 12..15
(for `translate(0, 0, -6)`: `[0, 0, -6, 1]`). -/
theorem mat_translate_column (r m m' : Mat α) (x y z : α) :
    mat_translate m x y z = ![1, 0, 0, 0, 0, 1, 0, 0, 0, 0, 1, 0, x, y, z, 1] ∧
    (∀ n, n < 12 → load (mat_translate m x y z) n = load (mat_identity m) n) ∧
    (load (mat_multiply r (mat_translate m x y z) (mat_identity m')) 12 = x ∧
      load (mat_multiply r (mat_translate m x y z) (mat_identity m')) 13 = y ∧
      load (mat_multiply r (mat_translate m x y z) (mat_identity m')) 14 = z ∧
      load (mat_multiply r (mat_translate m x y z) (mat_identity m')) 15 = 1) ∧
    (load (mat_multiply r (mat_identity m') (mat_translate m x y z)) 12 = x ∧
      load (mat_multiply r (mat_identity m') (mat_translate m x y z)) 13 = y ∧
      load (mat_multiply r (mat_identity m') (mat_translate m x y z)) 14 = z ∧
      load (mat_multiply r (mat_identity m') (mat_translate m x y z)) 15 = 1) ∧
    (load (mat_multiply (zeroBuf α) (mat_translate (zeroBuf α) 0 0 (-6))
        (mat_identity (zeroBuf α))) 12 = 0 ∧
      load (mat_multiply (zeroBuf α) (mat_translate (zeroBuf α) 0 0 (-6))
        (mat_identity (zeroBuf α))) 13 = 0 ∧
      load (mat_multiply (zeroBuf α) (mat_translate (zeroBuf α) 0 0 (-6))
        (mat_identity (zeroBuf α))) 14 = -6 ∧
      load (mat_multiply (zeroBuf α) (mat_translate (zeroBuf α) 0 0 (-6))
        (mat_identity (zeroBuf α))) 15 = 1) := by
  have hcol : ∀ a b c : α, load (translationValues a b c) 12 = a ∧
      load (translationValues a b c) 13 = b ∧ load (translationValues a b c) 14 = c ∧
      load (translationValues a b c) 15 = 1 := by
    intro a b c
    refine ⟨?_, ?_, ?_, ?_⟩ <;> simp [translationValues, load_vec]
  simp only [mat_identity_eq, mul_identityValues_right,
    mul_identityValues_left, mat_translate_eq]
  refine ⟨?_, ?_, hcol x y z, hcol x y z, hcol 0 0 (-6)⟩
  · unfold translationValues
    rfl
  · intro n hn
    interval_cases n <;> simp [translationValues, identityValues, load_vec]

end RingClaims

/-! ## C3, C4, C5, C6, C8 -/

section FieldClaims

variable {α : Type} [Field α]

/-- C3: for every angle, `mat_rotate` with the axis `(0, 0, 0)` returns exactly the identity
matrix, that is the 16 cells `1, 0, 0, 0, 0, 1, 0, 0, 0, 0, 1, 0, 0, 0, 0, 1` (the entry at
row `i`, column `j` is 1 when `i = j` and 0 otherwise), whatever the buffer held before; it
is what `mat_identity` stores, and no division is executed (the list of divisors is
empty). -/
theorem mat_rotate_zero_axis (m : Mat ℝ) (angle : ℝ) :
    mat_rotate Real.cos Real.sin Real.sqrt m angle 0 0 0 =
        (![1, 0, 0, 0, 0, 1, 0, 0, 0, 0, 1, 0, 0, 0, 0, 1], []) ∧
      (∀ i j : Fin 4,
        entry (mat_rotate Real.cos Real.sin Real.sqrt m angle 0 0 0).1 i j =
          if i = j then 1 else 0) ∧
      mat_rotate Real.cos Real.sin Real.sqrt m angle 0 0 0 = (mat_identity m, []) := by
  have h : mat_rotate Real.cos Real.sin Real.sqrt m angle 0 0 0 = (identityValues, []) :=
    mat_rotate_of_len_eq_zero _ _ _ _ _ _ _ _ (by simp)
  refine ⟨?_, ?_, ?_⟩
  · rw [h]
    rfl
  · intro i j
    rw [h]
    simp only [entry, load_identityValues_cell i.val j.val i.isLt j.isLt, Fin.ext_iff]
  · rw [h, mat_identity_eq]

/-- C4 (as stated) fails: with `znear = zfar = 1` (and `fov = 90`, `aspect = 1`) the two
divisions by `znear - zfar = 0` are executed, and the matrix stored has `-1` in cell 11 and
`0` in cell 15, so it is not the identity. -/
theorem perspective_unit_planes_not_identity :
    (mat_perspective Real.tan (zeroBuf ℝ) 90 1 1 1).2 =
        [2, Real.tan (DEG2RAD 90 / 2), 1, 0, 0] ∧
      load (mat_perspective Real.tan (zeroBuf ℝ) 90 1 1 1).1 11 = -1 ∧
      load (mat_perspective Real.tan (zeroBuf ℝ) 90 1 1 1).1 15 = 0 ∧
      (mat_perspective Real.tan (zeroBuf ℝ) 90 1 1 1).1 ≠ mat_identity (zeroBuf ℝ) := by
  have h11 : load (mat_perspective Real.tan (zeroBuf ℝ) 90 1 1 1).1 11 = -1 := by
    simp [mat_perspective_fst, perspectiveValues, load_vec]
  have h15 : load (mat_perspective Real.tan (zeroBuf ℝ) 90 1 1 1).1 15 = 0 := by
    simp [mat_perspective_fst, perspectiveValues, load_vec]
  refine ⟨by simp [mat_perspective_snd], h11, h15, fun hEq => ?_⟩
  rw [hEq, mat_identity_eq, load_identityValues 15 (by norm_num)] at h15
  norm_num at h15

/-- C4 (as amended): `mat_perspective` has no guard.  For every `fov`, `aspect` and
`znear = zfar` it executes the two divisions by `znear - zfar = 0`, and what it stores is
not the identity: cell 11 is `-1` and cell 15 is `0`. -/
theorem mat_perspective_equal_planes (tanf : α → α) (m : Mat α) (fov aspect znear : α) :
    (mat_perspective tanf m fov aspect znear znear).2 =
        [2, tanf (DEG2RAD fov / 2), aspect, 0, 0] ∧
      load (mat_perspective tanf m fov aspect znear znear).1 11 = -1 ∧
      load (mat_perspective tanf m fov aspect znear znear).1 15 = 0 ∧
      (mat_perspective tanf m fov aspect znear znear).1 ≠ mat_identity m := by
  have h15 : load (mat_perspective tanf m fov aspect znear znear).1 15 = 0 := by
    simp [mat_perspective_fst, perspectiveValues, load_vec]
  refine ⟨by simp [mat_perspective_snd], ?_, h15, fun hEq => ?_⟩
  · simp [mat_perspective_fst, perspectiveValues, load_vec]
  · rw [hEq, mat_identity_eq, load_identityValues 15 (by norm_num)] at h15
    simp at h15

/-- C5: with `f = 1 / tanf(fov * 0.017453292519943295769 / 2)`,
`mat_perspective(fov, aspect, znear, zfar)` stores `f / aspect` in cell 0, `f` in cell 5,
`(zfar + znear) / (znear - zfar)` in cell 10 (row 2, column 2), `-1` in cell 11 (row 3,
column 2), `2 * zfar * znear / (znear - zfar)` in cell 14 and `0` in every other cell, cell
15 included; `perspective(90, 1.0, 0.1, 100.0)` has `-1` at row 3, column 2.  The factor is
the radians of one degree: it differs from `π / 180` by less than `10⁻²¹`, so the argument
of the tangent is `fov` in radians, halved, up to `|fov| / 10²¹`; over the reals `f` is
`1 / tan` of it.  The equations hold for every input, so in particular for `fov < 180`,
`aspect ≠ 0`, `znear ≠ zfar`. -/
theorem mat_perspective_entries (tanf : α → α) (m : Mat α) (fov aspect znear zfar : α) :
    entry (mat_perspective tanf m fov aspect znear zfar).1 3 2 = -1 ∧
      entry (mat_perspective tanf m fov aspect znear zfar).1 2 2 =
        (zfar + znear) / (znear - zfar) ∧
      load (mat_perspective tanf m fov aspect znear zfar).1 11 = -1 ∧
      load (mat_perspective tanf m fov aspect znear zfar).1 10 =
        (zfar + znear) / (znear - zfar) ∧
      load (mat_perspective tanf m fov aspect znear zfar).1 14 =
        2 * zfar * znear / (znear - zfar) ∧
      load (mat_perspective tanf m fov aspect znear zfar).1 0 =
        1 / tanf (fov * 0.017453292519943295769 / 2) / aspect ∧
      load (mat_perspective tanf m fov aspect znear zfar).1 5 =
        1 / tanf (fov * 0.017453292519943295769 / 2) ∧
      (∀ n, n < 16 → n ≠ 0 → n ≠ 5 → n ≠ 10 → n ≠ 11 → n ≠ 14 →
        load (mat_perspective tanf m fov aspect znear zfar).1 n = 0) ∧
      entry (mat_perspective tanf m 90 1.0 0.1 100.0).1 3 2 = -1 ∧
      |(0.017453292519943295769 : ℝ) - Real.pi / 180| < 1 / 10 ^ 21 ∧
      (∀ d : ℝ, |DEG2RAD d - d * (Real.pi / 180)| ≤ |d| / 10 ^ 21) ∧
      (∀ (b : Mat ℝ) (d a n f : ℝ),
        load (mat_perspective Real.tan b d a n f).1 5 = 1 / Real.tan (DEG2RAD d / 2) ∧
        load (mat_perspective Real.tan b d a n f).1 0 = 1 / Real.tan (DEG2RAD d / 2) / a ∧
        |DEG2RAD d / 2 - d * (Real.pi / 180) / 2| ≤ |d| / 10 ^ 21) := by
  have h32 : ∀ a b c d : α, entry (mat_perspective tanf m a b c d).1 3 2 = -1 := by
    intro a b c d
    show load (mat_perspective tanf m a b c d).1 11 = -1
    simp [mat_perspective_fst, perspectiveValues, load_vec]
  have h22 : entry (mat_perspective tanf m fov aspect znear zfar).1 2 2 =
      (zfar + znear) / (znear - zfar) := by
    show load (mat_perspective tanf m fov aspect znear zfar).1 10 = _
    simp [mat_perspective_fst, perspectiveValues, load_vec]
  refine ⟨h32 _ _ _ _, h22, ?_, ?_, ?_, ?_, ?_, ?_, h32 _ _ _ _,
    deg2rad_constant_near_pi, DEG2RAD_near_radians, ?_⟩
  · simp [mat_perspective_fst, perspectiveValues, load_vec]
  · simp [mat_perspective_fst, perspectiveValues, load_vec]
  · simp [mat_perspective_fst, perspectiveValues, load_vec]
  · simp [mat_perspective_fst, perspectiveValues, load_vec, DEG2RAD]
  · simp [mat_perspective_fst, perspectiveValues, load_vec, DEG2RAD]
  · intro n hn h0 h5 h10 h11 h14
    interval_cases n <;> simp_all [mat_perspective_fst, perspectiveValues, load_vec]
  · intro b d a n f
    refine ⟨?_, ?_, ?_⟩
    · simp [mat_perspective_fst, perspectiveValues, load_vec]
    · simp [mat_perspective_fst, perspectiveValues, load_vec]
    · have hd := DEG2RAD_near_radians d
      have e : DEG2RAD d / 2 - d * (Real.pi / 180) / 2 =
          (DEG2RAD d - d * (Real.pi / 180)) / 2 := by ring
      rw [e, abs_div, abs_two]
      have hn : 0 ≤ |DEG2RAD d - d * (Real.pi / 180)| := abs_nonneg _
      linarith

/-- C6 (as stated) fails for the axis `(1, 1, 0.5)` of the frame update: the product of the
rotations for the elapsed times `0` and `π` has `-1/9` in cell 0, so it is not the
identity, in either order. -/
theorem frame_rot_zero_pi_not_inverse :
    load (mat_multiply (zeroBuf ℝ) (frame_rot Real.cos Real.sin Real.sqrt (zeroBuf ℝ) 0).1
        (frame_rot Real.cos Real.sin Real.sqrt (zeroBuf ℝ) Real.pi).1) 0 = -1 / 9 ∧
      mat_multiply (zeroBuf ℝ) (frame_rot Real.cos Real.sin Real.sqrt (zeroBuf ℝ) 0).1
        (frame_rot Real.cos Real.sin Real.sqrt (zeroBuf ℝ) Real.pi).1 ≠
          mat_identity (zeroBuf ℝ) ∧
      mat_multiply (zeroBuf ℝ) (frame_rot Real.cos Real.sin Real.sqrt (zeroBuf ℝ) Real.pi).1
        (frame_rot Real.cos Real.sin Real.sqrt (zeroBuf ℝ) 0).1 ≠
          mat_identity (zeroBuf ℝ) := by
  have hax : (1 : ℝ) ≠ 0 ∨ (1 : ℝ) ≠ 0 ∨ (0.5 : ℝ) ≠ 0 := Or.inl one_ne_zero
  have h0 : load (rotationValues (-1 : ℝ) 0 (1 / 1.5) (1 / 1.5) (0.5 / 1.5)) 0 = -1 / 9 := by
    simp [rotationValues, load_vec]
    norm_num
  have hne : rotationValues (-1 : ℝ) 0 (1 / 1.5) (1 / 1.5) (0.5 / 1.5) ≠ identityValues := by
    intro hEq
    rw [hEq, load_identityValues 0 (by norm_num)] at h0
    norm_num at h0
  simp only [frame_rot, rotate_angle_zero_fst, rotate_angle_pi_fst _ _ _ _ hax,
    mul_identityValues_left, mul_identityValues_right, mat_identity_eq,
    frame_axis_len]
  exact ⟨h0, hne, hne⟩

/-- C6 (as amended): for every non-zero axis `v`, `rotate(0, v)` is the identity, so the
products of `rotate(0, v)` and `rotate(π, v)`, in either order, equal `rotate(π, v)`, which
is not the identity; `rotate(π, v)` is its own inverse. -/
theorem mat_rotate_zero_pi (r m m' : Mat ℝ) (x y z : ℝ) (h : x ≠ 0 ∨ y ≠ 0 ∨ z ≠ 0) :
    (mat_rotate Real.cos Real.sin Real.sqrt m 0 x y z).1 = mat_identity m ∧
      mat_multiply r (mat_rotate Real.cos Real.sin Real.sqrt m 0 x y z).1
          (mat_rotate Real.cos Real.sin Real.sqrt m' Real.pi x y z).1 =
        (mat_rotate Real.cos Real.sin Real.sqrt m' Real.pi x y z).1 ∧
      mat_multiply r (mat_rotate Real.cos Real.sin Real.sqrt m' Real.pi x y z).1
          (mat_rotate Real.cos Real.sin Real.sqrt m 0 x y z).1 =
        (mat_rotate Real.cos Real.sin Real.sqrt m' Real.pi x y z).1 ∧
      (mat_rotate Real.cos Real.sin Real.sqrt m' Real.pi x y z).1 ≠ mat_identity m ∧
      mat_multiply r (mat_rotate Real.cos Real.sin Real.sqrt m' Real.pi x y z).1
          (mat_rotate Real.cos Real.sin Real.sqrt m' Real.pi x y z).1 = mat_identity m := by
  simp only [rotate_angle_zero_fst, rotate_angle_pi_fst _ _ _ _ h,
    mul_identityValues_left, mul_identityValues_right, mat_identity_eq]
  exact ⟨trivial, trivial, trivial, rotationValues_half_turn_ne _ _ _ (unit_axis x y z h),
    rotationValues_half_turn_sq r _ _ _ (unit_axis x y z h)⟩

/-- C6, witness of the amended statement at the axis `(1, 1, 0.5)` of the frame update. -/
theorem mat_rotate_zero_pi_witness :
    ((1 : ℝ) ≠ 0 ∨ (1 : ℝ) ≠ 0 ∨ (0.5 : ℝ) ≠ 0) ∧
    ((mat_rotate Real.cos Real.sin Real.sqrt (zeroBuf ℝ) 0 1 1 0.5).1
        = mat_identity (zeroBuf ℝ) ∧
      mat_multiply (zeroBuf ℝ) (mat_rotate Real.cos Real.sin Real.sqrt (zeroBuf ℝ) 0 1 1 0.5).1
          (mat_rotate Real.cos Real.sin Real.sqrt (zeroBuf ℝ) Real.pi 1 1 0.5).1 =
        (mat_rotate Real.cos Real.sin Real.sqrt (zeroBuf ℝ) Real.pi 1 1 0.5).1 ∧
      mat_multiply (zeroBuf ℝ)
          (mat_rotate Real.cos Real.sin Real.sqrt (zeroBuf ℝ) Real.pi 1 1 0.5).1
          (mat_rotate Real.cos Real.sin Real.sqrt (zeroBuf ℝ) 0 1 1 0.5).1 =
        (mat_rotate Real.cos Real.sin Real.sqrt (zeroBuf ℝ) Real.pi 1 1 0.5).1 ∧
      (mat_rotate Real.cos Real.sin Real.sqrt (zeroBuf ℝ) Real.pi 1 1 0.5).1
        ≠ mat_identity (zeroBuf ℝ) ∧
      mat_multiply (zeroBuf ℝ)
          (mat_rotate Real.cos Real.sin Real.sqrt (zeroBuf ℝ) Real.pi 1 1 0.5).1
          (mat_rotate Real.cos Real.sin Real.sqrt (zeroBuf ℝ) Real.pi 1 1 0.5).1 =
        mat_identity (zeroBuf ℝ)) :=
  ⟨Or.inl one_ne_zero,
    mat_rotate_zero_pi (zeroBuf ℝ) (zeroBuf ℝ) (zeroBuf ℝ) 1 1 0.5 (Or.inl one_ne_zero)⟩

/-- C8: for every non-zero axis `(x, y, z)`, `mat_rotate` with angle `0` returns the identity
matrix; the three divisions it executes are by the non-zero length of the axis. -/
theorem mat_rotate_zero_angle (m : Mat ℝ) (x y z : ℝ) (h : x ≠ 0 ∨ y ≠ 0 ∨ z ≠ 0) :
    (mat_rotate Real.cos Real.sin Real.sqrt m 0 x y z).1 = mat_identity m ∧
      ∀ d ∈ (mat_rotate Real.cos Real.sin Real.sqrt m 0 x y z).2, d ≠ 0 := by
  refine ⟨by rw [rotate_angle_zero_fst, mat_identity_eq], ?_⟩
  rw [mat_rotate_of_len_ne_zero _ _ _ _ _ _ _ _ (len_ne_zero x y z h)]
  intro d hd
  simp only [List.mem_cons, List.mem_singleton, List.not_mem_nil, or_false, or_self] at hd
  rw [hd]
  exact len_ne_zero x y z h

/-- C8, witness at the axis `(1, 1, 0.5)` of the frame update. -/
theorem mat_rotate_zero_angle_witness :
    ((1 : ℝ) ≠ 0 ∨ (1 : ℝ) ≠ 0 ∨ (0.5 : ℝ) ≠ 0) ∧
    ((mat_rotate Real.cos Real.sin Real.sqrt (zeroBuf ℝ) 0 1 1 0.5).1
        = mat_identity (zeroBuf ℝ) ∧
      ∀ d ∈ (mat_rotate Real.cos Real.sin Real.sqrt (zeroBuf ℝ) 0 1 1 0.5).2, d ≠ 0) :=
  ⟨Or.inl one_ne_zero, mat_rotate_zero_angle (zeroBuf ℝ) 1 1 0.5 (Or.inl one_ne_zero)⟩

end FieldClaims

/-! ## C7 -/

section ShaderClaims

/-- C7 (as stated) fails: in a context where both compilations and the link fail,
`createShaderProgram` returns the program name 3, not 0; `compile_shader` returns the shader
name 1; the cube programs end with `prog = 3` and report the two compile logs only. -/
theorem createShaderProgram_failure_returns_handle :
    (createShaderProgram failingGL brokenSources "vertex.glsl" "fragment.glsl").1 = 3 ∧
      (compile_shader failingGL ShaderType.GL_VERTEX_SHADER "not a shader").1 = 1 ∧
      cube_program failingGL "not a shader" "not a shader" =
        (3, ["Shader error: 0(1) : error C0000: syntax error\n",
             "Shader error: 0(1) : error C0000: syntax error\n"]) ∧
      ¬ (∀ (gl : GLContext) (fs : String → Option String) (vpath fpath vsrc fsrc : String),
          fs vpath = some vsrc → fs fpath = some fsrc →
          gl.compileStatus ShaderType.GL_VERTEX_SHADER vsrc = false →
          (createShaderProgram gl fs vpath fpath).1 = 0) := by
  refine ⟨rfl, rfl, by decide, fun h => ?_⟩
  have h3 := h failingGL brokenSources "vertex.glsl" "fragment.glsl" "not a shader"
    "not a shader" rfl rfl rfl
  exact absurd h3 (by decide)

/-- C7 (as amended): when both source files can be read, `createShaderProgram` returns the
name that `glCreateProgram` handed out, whatever the compile and link statuses, and writes
to `stderr` the log of each stage that failed (vertex compile, fragment compile, link);
`compile_shader` returns the name that `glCreateShader` handed out and writes the log when
the compilation failed; the cube programs keep the name of `glCreateProgram`, write the two
compile logs only and do not query the link status (their result is the same whatever the
link status and the link log).  `createShaderProgram` returns 0 when a source file cannot
be opened and, as long as `glCreateProgram` hands out a non-zero name, in no other case. -/
theorem createShaderProgram_reports_and_returns (gl : GLContext)
    (fs : String → Option String) (vpath fpath vsrc fsrc : String)
    (hv : fs vpath = some vsrc) (hf : fs fpath = some fsrc) :
    (createShaderProgram gl fs vpath fpath).1 = gl.glCreateProgram ∧
      (gl.compileStatus ShaderType.GL_VERTEX_SHADER vsrc = false →
        "Vertex shader error:\n" ++ gl.shaderInfoLog ShaderType.GL_VERTEX_SHADER vsrc ++ "\n"
          ∈ (createShaderProgram gl fs vpath fpath).2) ∧
      (gl.compileStatus ShaderType.GL_FRAGMENT_SHADER fsrc = false →
        "Fragment shader error:\n" ++ gl.shaderInfoLog ShaderType.GL_FRAGMENT_SHADER fsrc
          ++ "\n" ∈ (createShaderProgram gl fs vpath fpath).2) ∧
      (gl.linkStatus vsrc fsrc = false →
        "Program link error:\n" ++ gl.programInfoLog vsrc fsrc ++ "\n"
          ∈ (createShaderProgram gl fs vpath fpath).2) ∧
      (∀ (t : ShaderType) (src : String),
        (compile_shader gl t src).1 = gl.glCreateShader t ∧
        (gl.compileStatus t src = false →
          (compile_shader gl t src).2 = ["Shader error: " ++ gl.shaderInfoLog t src ++ "\n"])) ∧
      (cube_program gl vsrc fsrc).1 = gl.glCreateProgram ∧
      (∀ (p q : String), fs p = none ∨ fs q = none →
        (createShaderProgram gl fs p q).1 = 0) ∧
      (∀ (p q : String), gl.glCreateProgram ≠ 0 →
        ((createShaderProgram gl fs p q).1 = 0 ↔ fs p = none ∨ fs q = none)) ∧
      (∀ (v f : String),
        (cube_program gl v f).2 =
          (compile_shader gl ShaderType.GL_VERTEX_SHADER v).2 ++
            (compile_shader gl ShaderType.GL_FRAGMENT_SHADER f).2) ∧
      (∀ (v f : String) (status : String → String → Bool) (log : String → String → String),
        cube_program { gl with linkStatus := status, programInfoLog := log } v f =
          cube_program gl v f) := by
  have hmissing : ∀ (p q : String), fs p = none ∨ fs q = none →
      (createShaderProgram gl fs p q).1 = 0 := by
    intro p q h
    rcases h with h | h
    · cases hq : fs q <;> simp [createShaderProgram, readFile, h, hq]
    · cases hp : fs p <;> simp [createShaderProgram, readFile, h, hp]
  refine ⟨?_, ?_, ?_, ?_, ?_, rfl, hmissing, ?_, fun _ _ => rfl, fun _ _ _ _ => rfl⟩
  rotate_right
  · intro p q hprog
    refine ⟨fun h0 => ?_, hmissing p q⟩
    cases hp : fs p with
    | none => exact Or.inl rfl
    | some a =>
      cases hq : fs q with
      | none => exact Or.inr rfl
      | some b =>
        have hret : (createShaderProgram gl fs p q).1 = gl.glCreateProgram := by
          simp [createShaderProgram, readFile, hp, hq]
        rw [hret] at h0
        exact absurd h0 hprog
  · simp [createShaderProgram, readFile, hv, hf]
  · intro h
    simp [createShaderProgram, readFile, hv, hf, h]
  · intro h
    simp [createShaderProgram, readFile, hv, hf, h]
  · intro h
    simp [createShaderProgram, readFile, hv, hf, h]
  · intro t src
    refine ⟨rfl, fun h => ?_⟩
    simp [compile_shader, h]

/-- C7, witness of the amended statement in the context where every stage fails. -/
theorem createShaderProgram_reports_and_returns_witness :
    (brokenSources "vertex.glsl" = some "not a shader" ∧
      brokenSources "fragment.glsl" = some "not a shader") ∧
    (createShaderProgram failingGL brokenSources "vertex.glsl" "fragment.glsl").1 =
      failingGL.glCreateProgram :=
  ⟨⟨rfl, rfl⟩,
    (createShaderProgram_reports_and_returns failingGL brokenSources "vertex.glsl"
      "fragment.glsl" "not a shader" "not a shader" rfl rfl).1⟩

end ShaderClaims

/-! ## Facts about the BMP loader -/

section BMPFacts

theorem byteAt_lt (h : List Byte) (i : Nat) : byteAt h i < 256 :=
  (h.getD i 0).isLt

theorem le32_lt (h : List Byte) (off : Nat) : le32 h off < 4294967296 := by
  have h0 := byteAt_lt h off
  have h1 := byteAt_lt h (off + 1)
  have h2 := byteAt_lt h (off + 2)
  have h3 := byteAt_lt h (off + 3)
  unfold le32
  omega

theorem toUnsigned_asInt (n : Nat) (hn : n < 4294967296) : toUnsigned (asInt n) = n := by
  unfold toUnsigned asInt
  split_ifs <;> omega

theorem toUnsigned_readInt (h : List Byte) (off : Nat) :
    toUnsigned (readInt h off) = le32 h off :=
  toUnsigned_asInt _ (le32_lt h off)

theorem asInt_eq_iff (n : Nat) (k : Nat) (hn : n < 4294967296) (hk : k < 2147483648) :
    asInt n = (k : Int) ↔ n = k := by
  unfold asInt
  split_ifs <;> omega

theorem headerCheck_iff (header : List Byte) :
    headerCheck header = true ↔ headerCheckSpec header := by
  have h0 := byteAt_lt header 28
  have h1 := byteAt_lt header 29
  have h2 := byteAt_lt header 30
  have h3 := byteAt_lt header 31
  have h4 := byteAt_lt header 32
  have h5 := byteAt_lt header 33
  have e1 := asInt_eq_iff (le32 header 30) 0 (le32_lt header 30) (by norm_num)
  have e2 := asInt_eq_iff (le32 header 28) 24 (le32_lt header 28) (by norm_num)
  simp only [headerCheck, headerCheckSpec, readInt]
  simp only [Nat.cast_zero, Nat.cast_ofNat] at e1 e2
  simp only [ne_eq, e1, e2]
  simp only [le32, le16, Nat.reduceAdd] at *
  split_ifs with ha hb
  · simp only [Bool.false_eq_true, false_iff]
    omega
  · simp only [Bool.false_eq_true, false_iff]
    omega
  · simp only [true_iff]
    omega

theorem bmpFields_eq (header : List Byte) :
    bmpFields header =
      { dataPos := if le32 header 0x0A = 0 then 54 else le32 header 0x0A,
        imageSize :=
          if le32 header 0x22 = 0 then
            (le32 header 0x12 * le32 header 0x16 * 3) % 4294967296
          else le32 header 0x22,
        width := le32 header 0x12,
        height := le32 header 0x16 } := by
  simp only [bmpFields, toUnsigned_readInt]
  congr 1
  split_ifs
  · omega
  · rfl

theorem LoadBMP_of_short (bytes : List Byte) (textureID : Nat) (h : bytes.length < 54) :
    LoadBMP (some bytes) textureID =
      { ret := 0, stdout := ["Not a correct BMP file\n"], upload := none } := by
  have hl : (bytes.take 54).length ≠ 54 := by
    rw [List.length_take]
    omega
  simp only [LoadBMP, if_pos hl]

theorem LoadBMP_of_check_false (bytes : List Byte) (textureID : Nat)
    (h : headerCheck (bytes.take 54) = false) :
    (LoadBMP (some bytes) textureID).ret = 0 ∧ (LoadBMP (some bytes) textureID).upload = none := by
  unfold headerCheck at h
  simp only [LoadBMP]
  split_ifs at h ⊢ <;> simp at h ⊢

theorem LoadBMP_of_check_true (bytes : List Byte) (textureID : Nat) (hl : 54 ≤ bytes.length)
    (h : headerCheck (bytes.take 54) = true) :
    LoadBMP (some bytes) textureID =
      { ret := textureID, stdout := [],
        upload := some
          { width := (bmpFields (bytes.take 54)).width,
            height := (bmpFields (bytes.take 54)).height,
            data := (bytes.drop 54).take (bmpFields (bytes.take 54)).imageSize } } := by
  have hlen : (bytes.take 54).length = 54 := by
    rw [List.length_take]
    omega
  unfold headerCheck at h
  simp only [LoadBMP]
  split_ifs at h ⊢ <;> simp_all

end BMPFacts

/-! ## C10 -/

section BMPClaims

/-- C10: the header test of `LoadBMP` accepts a header exactly when bytes 0 and 1 are `B` and
`M`, the 16-bit field at `0x1C` is 24 and the 32-bit field at `0x1E` is 0; a file shorter
than 54 bytes or failing the test gives the return value 0 and no texture; for an accepted
header the texture name is returned, a zero image size at `0x22` is replaced by
`width * height * 3` modulo `2^32` and a zero data offset at `0x0A` by 54. -/
theorem LoadBMP_header_check (header bytes : List Byte) (textureID : Nat) :
    (headerCheck header = true ↔
      byteAt header 0 = 66 ∧ byteAt header 1 = 77 ∧ le16 header 0x1C = 24 ∧
        le32 header 0x1E = 0) ∧
    (bytes.length < 54 ∨ ¬ headerCheckSpec (bytes.take 54) →
      (LoadBMP (some bytes) textureID).ret = 0 ∧
        (LoadBMP (some bytes) textureID).upload = none) ∧
    (54 ≤ bytes.length → headerCheckSpec (bytes.take 54) →
      (LoadBMP (some bytes) textureID).ret = textureID ∧
        (LoadBMP (some bytes) textureID).upload = some
          { width := le32 (bytes.take 54) 0x12,
            height := le32 (bytes.take 54) 0x16,
            data := (bytes.drop 54).take (bmpFields (bytes.take 54)).imageSize }) ∧
    (bmpFields header).imageSize =
      (if le32 header 0x22 = 0 then (le32 header 0x12 * le32 header 0x16 * 3) % 2 ^ 32
        else le32 header 0x22) ∧
    (bmpFields header).dataPos = (if le32 header 0x0A = 0 then 54 else le32 header 0x0A) ∧
    (bmpFields header).width = le32 header 0x12 ∧
    (bmpFields header).height = le32 header 0x16 := by
  refine ⟨headerCheck_iff header, ?_, ?_, ?_, ?_, ?_, ?_⟩
  · rintro (h | h)
    · rw [LoadBMP_of_short bytes textureID h]
      exact ⟨rfl, rfl⟩
    · apply LoadBMP_of_check_false
      rw [← headerCheck_iff] at h
      simpa using h
  · intro hl h
    rw [← headerCheck_iff] at h
    rw [LoadBMP_of_check_true bytes textureID hl h, bmpFields_eq]
    exact ⟨rfl, rfl⟩
  · rw [bmpFields_eq]
    norm_num
  · rw [bmpFields_eq]
  · rw [bmpFields_eq]
  · rw [bmpFields_eq]

/-- C10, evaluation on the 58-byte file `tinyBMP`: the header is
accepted, the texture name 7 is returned, the zero size field becomes `1 * 1 * 3 = 3` and
the zero offset field becomes 54. -/
theorem LoadBMP_header_check_witness :
    (54 ≤ tinyBMP.length ∧ headerCheckSpec (tinyBMP.take 54)) ∧
    (LoadBMP (some tinyBMP) 7).ret = 7 ∧
    (LoadBMP (some tinyBMP) 7).upload = some { width := 1, height := 1, data := [10, 20, 30] } ∧
    (bmpFields (tinyBMP.take 54)).imageSize = 3 ∧
    (bmpFields (tinyBMP.take 54)).dataPos = 54 := by
  have hl : 54 ≤ tinyBMP.length := by decide
  have hs : headerCheckSpec (tinyBMP.take 54) :=
    (headerCheck_iff (tinyBMP.take 54)).mp (by decide)
  have h := (LoadBMP_header_check (tinyBMP.take 54) tinyBMP 7).2.2.1 hl hs
  refine ⟨⟨hl, hs⟩, h.1, ?_, by decide, by decide⟩
  rw [h.2]
  decide

end BMPClaims

/-! ## Facts about the rotation matrix -/

section RotationFacts

variable {β : Type} [CommRing β]

set_option maxHeartbeats 1000000 in
theorem rotationValues_mul_transpose (r : Mat β) (c s x y z : β)
    (hcs : c * c + s * s = 1) (hu : x * x + y * y + z * z = 1) :
    mat_multiply r (rotationValues c s x y z) (transposeValues (rotationValues c s x y z)) =
      identityValues := by
  apply Mat.ext_load
  intro n hn
  rw [load_mat_multiply_flat r _ _ n hn]
  interval_cases n <;> simp [rotationValues, transposeValues, identityValues, load_vec] <;>
    first
    | linear_combination (1 - x * x) * hcs + (s * s + x * x * (1 - c) * (1 - c)) * hu
    | linear_combination (1 - y * y) * hcs + (s * s + y * y * (1 - c) * (1 - c)) * hu
    | linear_combination (1 - z * z) * hcs + (s * s + z * z * (1 - c) * (1 - c)) * hu
    | linear_combination (-(x * y)) * hcs + (x * y * (1 - c) * (1 - c)) * hu
    | linear_combination (-(x * z)) * hcs + (x * z * (1 - c) * (1 - c)) * hu
    | linear_combination (-(y * z)) * hcs + (y * z * (1 - c) * (1 - c)) * hu

set_option maxHeartbeats 1000000 in
theorem rotationValues_transpose_mul (r : Mat β) (c s x y z : β)
    (hcs : c * c + s * s = 1) (hu : x * x + y * y + z * z = 1) :
    mat_multiply r (transposeValues (rotationValues c s x y z)) (rotationValues c s x y z) =
      identityValues := by
  apply Mat.ext_load
  intro n hn
  rw [load_mat_multiply_flat r _ _ n hn]
  interval_cases n <;> simp [rotationValues, transposeValues, identityValues, load_vec] <;>
    first
    | linear_combination (1 - x * x) * hcs + (s * s + x * x * (1 - c) * (1 - c)) * hu
    | linear_combination (1 - y * y) * hcs + (s * s + y * y * (1 - c) * (1 - c)) * hu
    | linear_combination (1 - z * z) * hcs + (s * s + z * z * (1 - c) * (1 - c)) * hu
    | linear_combination (-(x * y)) * hcs + (x * y * (1 - c) * (1 - c)) * hu
    | linear_combination (-(x * z)) * hcs + (x * z * (1 - c) * (1 - c)) * hu
    | linear_combination (-(y * z)) * hcs + (y * z * (1 - c) * (1 - c)) * hu

theorem rotationValues_det (c s x y z : β)
    (hcs : c * c + s * s = 1) (hu : x * x + y * y + z * z = 1) :
    (rotationBlock (rotationValues c s x y z)).det = 1 := by
  rw [Matrix.det_fin_three]
  simp [rotationBlock, rotationValues, load_vec]
  linear_combination hcs +
    (s * s + (1 - c) * (c * c + s * s * (x * x + y * y + z * z))) * hu

theorem load_transposeValues {γ : Type} (m : Mat γ) (i j : Nat) (hi : i < 4) (hj : j < 4) :
    load (transposeValues m) (4 * j + i) = load m (4 * i + j) := by
  interval_cases i <;> interval_cases j <;> simp [transposeValues, load_vec]

theorem rotationValues_border (c s x y z : β) :
    load (rotationValues c s x y z) 3 = 0 ∧ load (rotationValues c s x y z) 7 = 0 ∧
      load (rotationValues c s x y z) 11 = 0 ∧ load (rotationValues c s x y z) 12 = 0 ∧
      load (rotationValues c s x y z) 13 = 0 ∧ load (rotationValues c s x y z) 14 = 0 ∧
      load (rotationValues c s x y z) 15 = 1 := by
  refine ⟨?_, ?_, ?_, ?_, ?_, ?_, ?_⟩ <;> simp [rotationValues, load_vec]

theorem cos_mul_self_add_sin_mul_self (a : ℝ) :
    Real.cos a * Real.cos a + Real.sin a * Real.sin a = 1 := by
  rw [← sq, ← sq]
  exact Real.cos_sq_add_sin_sq a

theorem scaled_axis_len (k x y z : ℝ) (hk : 0 < k) :
    Real.sqrt (k * x * (k * x) + k * y * (k * y) + k * z * (k * z)) =
      k * Real.sqrt (x * x + y * y + z * z) := by
  rw [show k * x * (k * x) + k * y * (k * y) + k * z * (k * z) =
    k * k * (x * x + y * y + z * z) by ring,
    Real.sqrt_mul (mul_self_nonneg k), Real.sqrt_mul_self hk.le]

theorem scaled_axis_ne_zero (k x y z : ℝ) (hk : 0 < k) (h : x ≠ 0 ∨ y ≠ 0 ∨ z ≠ 0) :
    k * x ≠ 0 ∨ k * y ≠ 0 ∨ k * z ≠ 0 := by
  rcases h with h | h | h
  · exact Or.inl (mul_ne_zero hk.ne' h)
  · exact Or.inr (Or.inl (mul_ne_zero hk.ne' h))
  · exact Or.inr (Or.inr (mul_ne_zero hk.ne' h))

theorem rotate_scaled_axis_fst (m : Mat ℝ) (angle k x y z : ℝ) (hk : 0 < k)
    (h : x ≠ 0 ∨ y ≠ 0 ∨ z ≠ 0) :
    (mat_rotate Real.cos Real.sin Real.sqrt m angle (k * x) (k * y) (k * z)).1 =
      (mat_rotate Real.cos Real.sin Real.sqrt m angle x y z).1 := by
  rw [mat_rotate_of_len_ne_zero _ _ _ _ _ _ _ _ (len_ne_zero _ _ _ (scaled_axis_ne_zero k x y z hk h)),
    mat_rotate_of_len_ne_zero _ _ _ _ _ _ _ _ (len_ne_zero x y z h)]
  simp only [scaled_axis_len k x y z hk, mul_div_mul_left _ _ hk.ne']

end RotationFacts

/-! ## C11 -/

section RotationClaims

/-- C11: for every angle and every non-zero axis `(x, y, z)`, the matrix `R` that `mat_rotate`
stores is orthogonal over the reals: the products of `R` and its transpose through
`mat_multiply`, in either order, are the identity.  `R` is a pure rotation: its upper-left
3×3 block has determinant 1, and its fourth row (cells 3, 7, 11, 15) and fourth column
(cells 12, 13, 14, 15) are those of the identity.  Scaling the axis by any positive factor
leaves `R` unchanged. -/
theorem mat_rotate_orthogonal (r m : Mat ℝ) (angle x y z : ℝ)
    (h : x ≠ 0 ∨ y ≠ 0 ∨ z ≠ 0) :
    mat_multiply r (mat_rotate Real.cos Real.sin Real.sqrt m angle x y z).1
        (transposeValues (mat_rotate Real.cos Real.sin Real.sqrt m angle x y z).1) =
      mat_identity m ∧
    mat_multiply r (transposeValues (mat_rotate Real.cos Real.sin Real.sqrt m angle x y z).1)
        (mat_rotate Real.cos Real.sin Real.sqrt m angle x y z).1 =
      mat_identity m ∧
    (rotationBlock (mat_rotate Real.cos Real.sin Real.sqrt m angle x y z).1).det = 1 ∧
    (load (mat_rotate Real.cos Real.sin Real.sqrt m angle x y z).1 3 = 0 ∧
      load (mat_rotate Real.cos Real.sin Real.sqrt m angle x y z).1 7 = 0 ∧
      load (mat_rotate Real.cos Real.sin Real.sqrt m angle x y z).1 11 = 0 ∧
      load (mat_rotate Real.cos Real.sin Real.sqrt m angle x y z).1 12 = 0 ∧
      load (mat_rotate Real.cos Real.sin Real.sqrt m angle x y z).1 13 = 0 ∧
      load (mat_rotate Real.cos Real.sin Real.sqrt m angle x y z).1 14 = 0 ∧
      load (mat_rotate Real.cos Real.sin Real.sqrt m angle x y z).1 15 = 1) ∧
    ∀ k : ℝ, 0 < k →
      (mat_rotate Real.cos Real.sin Real.sqrt m angle (k * x) (k * y) (k * z)).1 =
        (mat_rotate Real.cos Real.sin Real.sqrt m angle x y z).1 := by
  have hR := mat_rotate_of_len_ne_zero Real.cos Real.sin Real.sqrt m angle x y z
    (len_ne_zero x y z h)
  have hcs := cos_mul_self_add_sin_mul_self angle
  have hu := unit_axis x y z h
  refine ⟨?_, ?_, ?_, ?_, fun k hk => rotate_scaled_axis_fst m angle k x y z hk h⟩
  · rw [hR, mat_identity_eq]
    exact rotationValues_mul_transpose r _ _ _ _ _ hcs hu
  · rw [hR, mat_identity_eq]
    exact rotationValues_transpose_mul r _ _ _ _ _ hcs hu
  · rw [hR]
    exact rotationValues_det _ _ _ _ _ hcs hu
  · rw [hR]
    exact rotationValues_border _ _ _ _ _

/-- C11, witness at the axis `(1, 1, 0.5)` of the frame update, the angle 1 and the scaling
factor 2. -/
theorem mat_rotate_orthogonal_witness :
    ((1 : ℝ) ≠ 0 ∨ (1 : ℝ) ≠ 0 ∨ (0.5 : ℝ) ≠ 0) ∧ (0 : ℝ) < 2 ∧
    mat_multiply (zeroBuf ℝ) (mat_rotate Real.cos Real.sin Real.sqrt (zeroBuf ℝ) 1 1 1 0.5).1
        (transposeValues (mat_rotate Real.cos Real.sin Real.sqrt (zeroBuf ℝ) 1 1 1 0.5).1) =
      mat_identity (zeroBuf ℝ) ∧
    (rotationBlock (mat_rotate Real.cos Real.sin Real.sqrt (zeroBuf ℝ) 1 1 1 0.5).1).det = 1 ∧
    (mat_rotate Real.cos Real.sin Real.sqrt (zeroBuf ℝ) 1 (2 * 1) (2 * 1) (2 * 0.5)).1 =
      (mat_rotate Real.cos Real.sin Real.sqrt (zeroBuf ℝ) 1 1 1 0.5).1 :=
  ⟨Or.inl one_ne_zero, two_pos,
    (mat_rotate_orthogonal (zeroBuf ℝ) (zeroBuf ℝ) 1 1 1 0.5 (Or.inl one_ne_zero)).1,
    (mat_rotate_orthogonal (zeroBuf ℝ) (zeroBuf ℝ) 1 1 1 0.5 (Or.inl one_ne_zero)).2.2.1,
    (mat_rotate_orthogonal (zeroBuf ℝ) (zeroBuf ℝ) 1 1 1 0.5 (Or.inl one_ne_zero)).2.2.2.2
      2 two_pos⟩

end RotationClaims

end OpenGLBox
